import Mathlib

/-!
Verification of the embedding HTTP service (`docker/embedding-service/server.py`).

The service is a thin Flask wrapper around an external embedding model:
a `/health` route, an `/embed` route, an `/info` route, and a module-level
lazily-initialized model handle (`_model`, loaded by `get_model`).

We embed the request handlers shallowly:
* JSON values are modelled by the inductive `Json`; Python truthiness
  (`if not data`) is `Json.truthy`, Python `key in data` is
  `Json.pyContains`, and Python `data[key]` is `Json.getKey`.
* The external `TextEmbedding` model is an abstract capability
  `EmbedderImpl E`: `construct` models `TextEmbedding(model_name=...)`
  (which may raise) and `embed` models `list(model.embed(texts))` followed
  by the `.tolist()` materialization (which may raise).  Vector entries are
  modelled over `Int`; no arithmetic on them occurs in the service.
* The module-level global `_model` is an explicit `Option E` state threaded
  through `get_model` and the `/embed` handler.
* Raising inside a handler outside the `try` block (a Python `TypeError`
  from `in` on a non-container) is modelled by the handler returning `none`.
-/

namespace EmbeddingService

/-- JSON values as parsed by `request.get_json()`. Numeric leaves are
modelled over `Int`; the service never computes with them. -/
inductive Json where
  | null : Json
  | bool : Bool → Json
  | num : Int → Json
  | str : String → Json
  | arr : List Json → Json
  | obj : List (String × Json) → Json

/-- Python truthiness of a parsed JSON value (`if not data` / `if not texts`). -/
def Json.truthy : Json → Bool
  | .null => false
  | .bool b => b
  | .num n => n != 0
  | .str s => !(s == "")
  | .arr xs => !xs.isEmpty
  | .obj fs => !fs.isEmpty

/-- Whether the first list starts the second (helper for Python substring `in`). -/
def lstarts : List Char → List Char → Bool
  | [], _ => true
  | _ :: _, [] => false
  | a :: as, b :: bs => a == b && lstarts as bs

/-- Whether the first list occurs contiguously inside the second
(helper for Python substring `in`). -/
def lcontains (k : List Char) : List Char → Bool
  | [] => k.isEmpty
  | b :: t => lstarts k (b :: t) || lcontains k t

/-- Python `k in j` for a parsed JSON value `j`: key membership for dicts,
element membership for lists, substring for strings; `none` models the
`TypeError` raised on numbers, booleans and `None`. -/
def Json.pyContains (j : Json) (k : String) : Option Bool :=
  match j with
  | .obj fs => some (fs.any fun p => p.1 == k)
  | .arr xs => some (xs.any fun x => match x with | .str s => s == k | _ => false)
  | .str s => some (lcontains k.data s.data)
  | _ => none

/-- Python `j[k]` for a string key: dict lookup; `none` models the
`TypeError` raised when `j` is not a dict. -/
def Json.getKey (j : Json) (k : String) : Option Json :=
  match j with
  | .obj fs => (fs.find? fun p => p.1 == k).map Prod.snd
  | _ => none

/-- An HTTP response: status code and JSON body, as produced by
`jsonify(...)` plus the optional status. -/
structure Resp where
  status : Nat
  body : Json

/-- The external embedding capability (fastembed `TextEmbedding`).
`construct` models `TextEmbedding(model_name=...)`; `embed` models
`[emb.tolist() for emb in list(model.embed(texts))]`.  Either may fail
with a message string (a Python exception, rendered by `str(e)`). -/
structure EmbedderImpl (E : Type) where
  construct : String → Except String E
  embed : E → Json → Except String (List (List Int))

/-- `get_model()`: lazily load the model.  The global `_model` is the
`Option E` argument; the returned state is the global after the call.
If construction raises, the global is left unset and the error propagates. -/
def get_model {E : Type} (impl : EmbedderImpl E) (modelName : String) :
    Option E → Except String (E × Option E)
  | some m => .ok (m, some m)
  | none =>
    match impl.construct modelName with
    | .ok m => .ok (m, some m)
    | .error e => .error e

/-- The `/health` handler: fixed payload, no effect on the model state. -/
def health {E : Type} (st : Option E) : Resp × Option E :=
  ({ status := 200, body := .obj [("status", .str "ok")] }, st)

/-- The `/info` handler: hardcoded model metadata. -/
def info (modelName : String) : Resp :=
  { status := 200,
    body := .obj [("model", .str modelName), ("dimensions", .num 384),
                  ("max_tokens", .num 256)] }

/-- Result of the `text` / `texts` dispatch in the `/embed` handler. -/
inductive Extract where
  | ok (texts : Json)
  | missing
  | crash

/-- The field dispatch of the `/embed` handler:
`if "text" in data: texts = [data["text"]] elif "texts" in data:
texts = data["texts"] else: <400>`; `crash` models an uncaught
`TypeError` from `in` or indexing on a non-dict. -/
def extractTexts (data : Json) : Extract :=
  match data.pyContains "text" with
  | none => .crash
  | some true =>
    match data.getKey "text" with
    | some v => .ok (.arr [v])
    | none => .crash
  | some false =>
    match data.pyContains "texts" with
    | none => .crash
    | some true =>
      match data.getKey "texts" with
      | some v => .ok v
      | none => .crash
    | some false => .missing

/-- An error response `jsonify({"error": msg}), status`. -/
def err (status : Nat) (msg : String) : Resp :=
  { status, body := .obj [("error", .str msg)] }

/-- Serialize a list of vectors to JSON. -/
def Json.ofVecs (vs : List (List Int)) : Json :=
  .arr (vs.map fun v => .arr (v.map Json.num))

/-- `len(embeddings_list[0]) if embeddings_list else 384`. -/
def dimsOf : List (List Int) → Int
  | [] => 384
  | v :: _ => (v.length : Int)

/-- The success response of the non-empty-batch path of `/embed`. -/
def okResp (vs : List (List Int)) : Resp :=
  { status := 200,
    body := .obj [("embeddings", Json.ofVecs vs), ("dimensions", .num (dimsOf vs))] }

/-- The `/embed` handler.  `body` is the result of `request.get_json()`
(`none` = absent/unparseable body); `st` is the module-level `_model`
global on entry.  The result is the response together with the global on
exit; `none` models an exception escaping the handler (a `TypeError`
outside the `try` block). -/
def embedRoute {E : Type} (impl : EmbedderImpl E) (modelName : String)
    (body : Option Json) (st : Option E) : Option (Resp × Option E) :=
  match body with
  | none => some (err 400 "No JSON body provided", st)
  | some data =>
    if !data.truthy then some (err 400 "No JSON body provided", st)
    else
      match extractTexts data with
      | .crash => none
      | .missing => some (err 400 "Provide \x27text\x27 or \x27texts\x27 field", st)
      | .ok texts =>
        if !texts.truthy then
          some ({ status := 200,
                  body := .obj [("embeddings", .arr []), ("dimensions", .num 384)] }, st)
        else
          match get_model impl modelName st with
          | .error e => some (err 500 e, st)
          | .ok (m, st') =>
            match impl.embed m texts with
            | .error e => some (err 500 e, st')
            | .ok vecs => some (okResp vecs, st')

/-- A deterministic test double: construction always succeeds and each
input string is mapped to the one-element vector holding its length. -/
def testImpl : EmbedderImpl Unit where
  construct := fun _ => .ok ()
  embed := fun _ t =>
    match t with
    | .arr xs => .ok (xs.map fun x => match x with | .str s => [(s.length : Int)] | _ => [])
    | _ => .error "bad input"

/-- A test double whose construction fails. -/
def failConstructImpl : EmbedderImpl Unit where
  construct := fun _ => .error "model load failed"
  embed := fun _ _ => .ok []

/-- A test double whose inference fails. -/
def failEmbedImpl : EmbedderImpl Unit where
  construct := fun _ => .ok ()
  embed := fun _ _ => .error "inference failed"

/-- A test double returning no vectors at all. -/
def emptyOutImpl : EmbedderImpl Unit where
  construct := fun _ => .ok ()
  embed := fun _ _ => .ok []

/-- A successful field dispatch implies the body was truthy: only a
non-empty JSON object can reach the `texts =` assignments without raising. -/
theorem extract_ok_truthy {data t : Json} (h : extractTexts data = .ok t) :
    data.truthy = true := by
  cases data with
  | null => simp [extractTexts, Json.pyContains] at h
  | bool b => simp [extractTexts, Json.pyContains] at h
  | num n => simp [extractTexts, Json.pyContains] at h
  | str s =>
    cases hc1 : lcontains "text".data s.data <;>
      cases hc2 : lcontains "texts".data s.data <;>
      simp [extractTexts, Json.pyContains, Json.getKey, hc1, hc2] at h
  | arr xs =>
    cases hc1 : xs.any (fun x => match x with | .str s => s == "text" | _ => false) <;>
      cases hc2 : xs.any (fun x => match x with | .str s => s == "texts" | _ => false) <;>
      simp [extractTexts, Json.pyContains, Json.getKey, hc1, hc2] at h
  | obj fs =>
    rcases fs with _ | ⟨p, fs⟩
    · simp [extractTexts, Json.pyContains] at h
    · simp [Json.truthy]

/-- Unfolding of the `/embed` handler once the field dispatch has produced a
batch: only the empty-batch check and the guarded model call remain. -/
theorem embedRoute_extract_ok {E : Type} (impl : EmbedderImpl E) (modelName : String)
    (data t : Json) (st : Option E) (hex : extractTexts data = .ok t) :
    embedRoute impl modelName (some data) st =
      (if !t.truthy then
        some ({ status := 200,
                body := .obj [("embeddings", .arr []), ("dimensions", .num 384)] }, st)
      else
        match get_model impl modelName st with
        | .error e => some (err 500 e, st)
        | .ok (m, st') =>
          match impl.embed m t with
          | .error e => some (err 500 e, st')
          | .ok vecs => some (okResp vecs, st')) := by
  have htr := extract_ok_truthy hex
  simp [embedRoute, htr, hex]

/-- C1: for a POST /embed request whose parsed body yields a non-empty batch
of strings (via `text` or `texts`), and an embedder whose `embed` is
order-preserving and returns one vector per input (modelled pointwise by
`f`), the 200 response carries `embeddings` of the same length as the batch
with `embeddings[i]` corresponding to input `i`, and `dimensions` is the
length of the first output vector. -/
theorem embed_nonempty_batch_order {E : Type} (impl : EmbedderImpl E) (modelName : String)
    (st st' : Option E) (m : E) (data : Json) (strs : List String) (f : String → List Int)
    (hne : strs ≠ [])
    (hex : extractTexts data = .ok (.arr (strs.map Json.str)))
    (hgm : get_model impl modelName st = .ok (m, st'))
    (hemb : impl.embed m (.arr (strs.map Json.str)) = .ok (strs.map f)) :
    embedRoute impl modelName (some data) st = some (okResp (strs.map f), st')
    ∧ (strs.map f).length = strs.length
    ∧ (∀ i (h : i < strs.length),
        (strs.map f).get ⟨i, by simpa using h⟩ = f (strs.get ⟨i, h⟩))
    ∧ (∀ s rest, strs = s :: rest → dimsOf (strs.map f) = ((f s).length : Int)) := by
  refine ⟨?_, by simp, ?_, ?_⟩
  · rw [embedRoute_extract_ok impl modelName data _ st hex]
    have htx : (Json.arr (strs.map Json.str)).truthy = true := by
      simpa [Json.truthy] using hne
    rw [htx]
    simp [hgm, hemb]
  · intro i h
    simp
  · intro s rest hcons
    subst hcons
    simp [dimsOf]

/-- Witness for C1 at the batch `["a", "b", "c"]` with the length test double. -/
theorem embed_nonempty_batch_order_witness :
    embedRoute testImpl "m"
      (some (Json.obj [("texts", Json.arr [Json.str "a", Json.str "b", Json.str "c"])])) none
      = some (okResp [[1], [1], [1]], some ()) := by
  exact (embed_nonempty_batch_order testImpl "m" none (some ()) ()
      (Json.obj [("texts", Json.arr [Json.str "a", Json.str "b", Json.str "c"])])
      ["a", "b", "c"] (fun s => [(s.length : Int)])
      (by simp) rfl rfl rfl).1

/-- C2: the embedder handle is constructed at most once per process
lifetime.  With the handle present, `get_model` returns that very handle
and leaves the state untouched — for every possible `construct`, so no
construction happens; with the handle absent and construction succeeding,
the handle becomes present; and after any successful call the state is
present, terminal, and every later call returns the same handle. -/
theorem get_model_at_most_once {E : Type} (impl : EmbedderImpl E) (modelName : String) :
    (∀ m : E, get_model impl modelName (some m) = .ok (m, some m))
    ∧ (∀ e : E, impl.construct modelName = .ok e →
        get_model impl modelName none = .ok (e, some e))
    ∧ (∀ (st st' : Option E) (r : E),
        get_model impl modelName st = .ok (r, st') →
        st' = some r ∧ get_model impl modelName st' = .ok (r, st')) := by
  refine ⟨fun m => rfl, fun e he => by simp [get_model, he], ?_⟩
  intro st st' r h
  cases st with
  | some m =>
    have h' : Except.ok (ε := String) (m, some m) = .ok (r, st') := h
    rcases Except.ok.inj h' with h''
    rcases Prod.mk.injEq .. ▸ h'' with ⟨h1, h2⟩
    subst h1; subst h2
    exact ⟨rfl, rfl⟩
  | none =>
    cases hc : impl.construct modelName with
    | ok e =>
      have h' : Except.ok (ε := String) (e, some e) = .ok (r, st') := by
        simpa [get_model, hc] using h
      rcases Except.ok.inj h' with h''
      rcases Prod.mk.injEq .. ▸ h'' with ⟨h1, h2⟩
      subst h1; subst h2
      exact ⟨rfl, rfl⟩
    | error e => simp [get_model, hc] at h

/-- Witness for C2: reuse with the handle present, and one construction
from the absent state. -/
theorem get_model_at_most_once_witness :
    get_model testImpl "m" (some ()) = .ok ((), some ())
    ∧ get_model testImpl "m" none = .ok ((), some ()) :=
  ⟨(get_model_at_most_once testImpl "m").1 (),
   (get_model_at_most_once testImpl "m").2.1 () rfl⟩

/-- C3: a request whose parsed body yields an empty batch short-circuits to
HTTP 200 with `{"embeddings": [], "dimensions": 384}`; the embedder is
neither invoked nor constructed (the result holds for every `impl`) and the
handle state is returned unchanged. -/
theorem embed_empty_batch_short_circuit {E : Type} (impl : EmbedderImpl E) (modelName : String)
    (st : Option E) (data t : Json)
    (hex : extractTexts data = .ok t) (ht : t.truthy = false) :
    embedRoute impl modelName (some data) st
      = some ({ status := 200,
                body := .obj [("embeddings", .arr []), ("dimensions", .num 384)] }, st) := by
  rw [embedRoute_extract_ok impl modelName data t st hex, ht]
  simp

/-- Witness for C3 at `{"texts": []}` with an embedder whose construction
would fail — showing it is never reached. -/
theorem embed_empty_batch_short_circuit_witness :
    embedRoute failConstructImpl "m" (some (Json.obj [("texts", Json.arr [])])) none
      = some ({ status := 200,
                body := .obj [("embeddings", .arr []), ("dimensions", .num 384)] }, none) :=
  embed_empty_batch_short_circuit failConstructImpl "m" none
    (Json.obj [("texts", Json.arr [])]) (Json.arr []) rfl rfl

/-- C4: with a non-empty batch, a failure in embedder construction or in the
embed call is caught and answered as HTTP 500 with `{"error": <message>}`;
the handler returns normally (`some`), so nothing propagates further. -/
theorem embed_failure_500 {E : Type} (impl : EmbedderImpl E) (modelName : String)
    (st : Option E) (data t : Json) (msg : String)
    (hex : extractTexts data = .ok t) (ht : t.truthy = true) :
    (get_model impl modelName st = .error msg →
       embedRoute impl modelName (some data) st = some (err 500 msg, st))
    ∧ (∀ (m : E) (st' : Option E),
        get_model impl modelName st = .ok (m, st') →
        impl.embed m t = .error msg →
        embedRoute impl modelName (some data) st = some (err 500 msg, st')) := by
  constructor
  · intro hgm
    rw [embedRoute_extract_ok impl modelName data t st hex, ht]
    simp [hgm]
  · intro m st' hgm hemb
    rw [embedRoute_extract_ok impl modelName data t st hex, ht]
    simp [hgm, hemb]

/-- Witness for C4: a failing construction and a failing embed call, both
answered with a 500 envelope. -/
theorem embed_failure_500_witness :
    embedRoute failConstructImpl "m" (some (Json.obj [("text", Json.str "a")])) none
      = some (err 500 "model load failed", none)
    ∧ embedRoute failEmbedImpl "m" (some (Json.obj [("text", Json.str "a")])) none
      = some (err 500 "inference failed", some ()) :=
  ⟨(embed_failure_500 failConstructImpl "m" none (Json.obj [("text", Json.str "a")])
      (Json.arr [Json.str "a"]) "model load failed" rfl rfl).1 rfl,
   (embed_failure_500 failEmbedImpl "m" none (Json.obj [("text", Json.str "a")])
      (Json.arr [Json.str "a"]) "inference failed" rfl rfl).2 () (some ()) rfl rfl⟩

/-- C5 counterexample: the empty JSON object `{}` contains neither a `text`
nor a `texts` field, yet the handler answers with the missing-body message
(`{}` is falsy in Python), not the missing-field message the claim states. -/
theorem provide_field_error_counterexample :
    embedRoute testImpl "m" (some (Json.obj [])) none
      = some (err 400 "No JSON body provided", none)
    ∧ embedRoute testImpl "m" (some (Json.obj [])) none
      ≠ some (err 400 "Provide \x27text\x27 or \x27texts\x27 field", none) := by
  constructor
  · rfl
  · intro h
    rw [show embedRoute testImpl "m" (some (Json.obj [])) none
        = some (err 400 "No JSON body provided", none) from rfl] at h
    simp [err] at h

/-- C5 as amended: for a request whose parsed body is a non-empty JSON
object containing neither a `text` nor a `texts` field, the service answers
HTTP 400 with the missing-field message. -/
theorem provide_field_error_400 {E : Type} (impl : EmbedderImpl E) (modelName : String)
    (st : Option E) (fs : List (String × Json))
    (hne : fs ≠ [])
    (h1 : fs.any (fun p => p.1 == "text") = false)
    (h2 : fs.any (fun p => p.1 == "texts") = false) :
    embedRoute impl modelName (some (.obj fs)) st
      = some (err 400 "Provide \x27text\x27 or \x27texts\x27 field", st) := by
  have htr : (Json.obj fs).truthy = true := by
    simpa [Json.truthy] using hne
  have hext : extractTexts (.obj fs) = .missing := by
    simp [extractTexts, Json.pyContains, h1, h2]
  simp [embedRoute, htr, hext]

/-- Witness for the amended C5 at `{"foo": 1}`. -/
theorem provide_field_error_400_witness :
    embedRoute testImpl "m" (some (Json.obj [("foo", Json.num 1)])) none
      = some (err 400 "Provide \x27text\x27 or \x27texts\x27 field", none) :=
  provide_field_error_400 testImpl "m" none [("foo", Json.num 1)] (by simp) rfl rfl

/-- C6: an absent or unparseable request body is answered HTTP 400 with
`{"error": "No JSON body provided"}`, for every embedder and every state. -/
theorem no_json_body_400 {E : Type} (impl : EmbedderImpl E) (modelName : String)
    (st : Option E) :
    embedRoute impl modelName none st = some (err 400 "No JSON body provided", st) := rfl

/-- C7: when the parsed body holds both a `text` and a `texts` field, the
`text` field wins — the request is handled exactly like the single-field
request `{"text": <that value>}`, and `texts` is ignored. -/
theorem text_field_wins {E : Type} (impl : EmbedderImpl E) (modelName : String)
    (st : Option E) (fs : List (String × Json)) (v : Json)
    (h1 : Json.getKey (.obj fs) "text" = some v)
    (h2 : fs.any (fun p => p.1 == "texts") = true) :
    embedRoute impl modelName (some (.obj fs)) st
      = embedRoute impl modelName (some (.obj [("text", v)])) st := by
  have hany : fs.any (fun p => p.1 == "text") = true := by
    rcases hf : fs.find? (fun p => p.1 == "text") with _ | pr
    · simp [Json.getKey, hf] at h1
    · have hp := List.find?_some hf
      exact List.any_eq_true.mpr ⟨pr, List.mem_of_find?_eq_some hf, by simpa using hp⟩
  have hext : extractTexts (.obj fs) = .ok (.arr [v]) := by
    simp [extractTexts, Json.pyContains, hany, h1]
  have hext' : extractTexts (.obj [("text", v)]) = .ok (.arr [v]) := rfl
  rw [embedRoute_extract_ok impl modelName _ _ st hext,
      embedRoute_extract_ok impl modelName _ _ st hext']

/-- Witness for C7: a body holding both fields is answered exactly like the
body holding only its `text` field. -/
theorem text_field_wins_witness :
    embedRoute testImpl "m"
      (some (Json.obj [("text", Json.str "ab"), ("texts", Json.arr [Json.str "zzz"])])) none
      = embedRoute testImpl "m" (some (Json.obj [("text", Json.str "ab")])) none :=
  text_field_wins testImpl "m" none
    [("text", Json.str "ab"), ("texts", Json.arr [Json.str "zzz"])] (Json.str "ab") rfl rfl

/-- C8: the `/health` handler answers HTTP 200 with `{"status": "ok"}` in
every embedder state, and returns the handle state unchanged. -/
theorem health_always_ok {E : Type} (st : Option E) :
    health st = ({ status := 200, body := .obj [("status", .str "ok")] }, st) := rfl

/-- C9: a parsed body that is falsy in Python (the empty object `{}`, `[]`,
`0`, `""`, `false`, `null`) takes the missing-body branch: HTTP 400 with
`{"error": "No JSON body provided"}`, not the missing-field message. -/
theorem falsy_body_no_json_error {E : Type} (impl : EmbedderImpl E) (modelName : String)
    (st : Option E) (j : Json) (h : j.truthy = false) :
    embedRoute impl modelName (some j) st = some (err 400 "No JSON body provided", st) := by
  simp [embedRoute, h]

/-- Witness for C9 at the empty JSON object. -/
theorem falsy_body_no_json_error_witness :
    embedRoute testImpl "m" (some (Json.obj [])) none
      = some (err 400 "No JSON body provided", none) :=
  falsy_body_no_json_error testImpl "m" none (Json.obj []) rfl

/-- C10: with a non-empty batch, if the embed call returns no vectors at
all, the handler still answers HTTP 200 with `{"embeddings": [],
"dimensions": 384}` — the hardcoded 384 fallback, not a derived width. -/
theorem empty_embed_output_dims_384 {E : Type} (impl : EmbedderImpl E) (modelName : String)
    (st st' : Option E) (m : E) (data t : Json)
    (hex : extractTexts data = .ok t) (ht : t.truthy = true)
    (hgm : get_model impl modelName st = .ok (m, st'))
    (hemb : impl.embed m t = .ok []) :
    embedRoute impl modelName (some data) st
      = some ({ status := 200,
                body := .obj [("embeddings", .arr []), ("dimensions", .num 384)] }, st') := by
  rw [embedRoute_extract_ok impl modelName data t st hex, ht]
  simp [hgm, hemb, okResp, Json.ofVecs, dimsOf]

/-- Witness for C10: an embedder returning no vectors for `{"text": "a"}`. -/
theorem empty_embed_output_dims_384_witness :
    embedRoute emptyOutImpl "m" (some (Json.obj [("text", Json.str "a")])) none
      = some ({ status := 200,
                body := .obj [("embeddings", .arr []), ("dimensions", .num 384)] }, some ()) :=
  empty_embed_output_dims_384 emptyOutImpl "m" none (some ()) ()
    (Json.obj [("text", Json.str "a")]) (Json.arr [Json.str "a"]) rfl rfl rfl rfl

end EmbeddingService
